import Mathlib

/-!
Shallow embedding of `src/video_generator.py`.

The script assembles a video from a JSON description: per-scene background
images (fetched over HTTP or reused from an index-named local cache), a
per-frame zoom/pan motion transform applied to each still image, crossfade
markers, a sound-effect audio timeline, and a final clamp of the composite
audio to the video's duration.

Modelling choices:
- Python numbers are embedded as `ℚ` (the script does exact arithmetic on
  small decimal constants such as `0.15`; no floating rounding is relevant
  to any property treated here).
- Python dynamic values fed to `parse_time` are a small inductive `PyVal`
  (`None`, a number, a string).
- `float(...)` on strings is modelled by `pyFloat`, a decimal-literal parser
  (optional sign, digits, optional fractional part, surrounding whitespace
  stripped); returning `Option ℚ`, with failure standing for the `ValueError`
  that the script's bare `except` catches.
- External effects are an explicit environment `Env`: a filesystem-existence
  oracle, an HTTP oracle (one outcome per `(prompt, ratio)` payload), and an
  audio-file duration oracle.  The filesystem oracle is static: within one
  `build_video` run every scene index is probed at most once, so writes made
  during the run are never read back.
- `moviepy` facts used by the code are embedded at the level the code relies
  on: `concatenate_videoclips` yields a clip whose duration is the sum of the
  input durations (`crossfadein` without negative padding does not overlap
  clips), `CompositeAudioClip`'s duration is the maximum clip end, and
  `set_duration` replaces the duration.
-/

namespace VideoGenerator

/-- A Python value as seen by `parse_time`: `None`, an int/float, or a str. -/
inductive PyVal where
  | none : PyVal
  | num : ℚ → PyVal
  | str : String → PyVal
deriving DecidableEq, Repr

/-- Python `str.split(sep)` for a one-character separator, on the character
list: splitting never drops empty pieces (`"".split(":") == [""]`,
`"::".split(":") == ["", "", ""]`). -/
def splitOnChar (c : Char) : List Char → List (List Char)
  | [] => [[]]
  | x :: xs =>
    let r := splitOnChar c xs
    if x = c then [] :: r
    else
      match r with
      | [] => [[x]]
      | y :: ys => (x :: y) :: ys

/-- Strip leading and trailing whitespace, as Python `float` does before
parsing. -/
def trimChars (cs : List Char) : List Char :=
  ((cs.dropWhile Char.isWhitespace).reverse.dropWhile Char.isWhitespace).reverse

/-- Digits to a natural number, most significant first (the usual base-10 read). -/
def digitsToNat (cs : List Char) : ℕ :=
  cs.foldl (fun a c => a * 10 + (c.toNat - 48)) 0

/-- Integer part / fractional part of a decimal literal, as in Python `float`:
both must be all digits and at least one must be nonempty
(`"1."`, `".5"`, `"1.5"`, `"10"` parse; `"."` and `""` do not). -/
def parseFrac (ip fp : List Char) : Option ℚ :=
  if (ip.all Char.isDigit ∧ fp.all Char.isDigit) ∧ (ip ≠ [] ∨ fp ≠ []) then
    some ((digitsToNat ip : ℚ) + (digitsToNat fp : ℚ) / (10 ^ fp.length))
  else Option.none

/-- Unsigned decimal magnitude: `"10"`, `"1.5"`, `".5"`, `"1."`. -/
def parseMag (cs : List Char) : Option ℚ :=
  match splitOnChar '.' cs with
  | [ip] => parseFrac ip []
  | [ip, fp] => parseFrac ip fp
  | _ => Option.none

/-- Python `float(s)` on decimal literals: strip whitespace, optional sign,
then an unsigned decimal magnitude.  (Exponents, `inf`/`nan` and digit
underscores, which `float` also accepts, are outside the inputs any claim
touches and are modelled as failures.) -/
def pyFloat (cs : List Char) : Option ℚ :=
  match trimChars cs with
  | '-' :: rest => (parseMag rest).map (fun q => -q)
  | '+' :: rest => parseMag rest
  | t => parseMag t

/-- The body of `parse_time`'s `try` block on a string `val`
(after `val = str(val)`): if `":" in val` then `m, s = val.split(":")`
and `(float(m) * 60) + float(s)`, else `float(val)`.
`Option.none` stands for the exception the bare `except` catches
(a failed `float`, or tuple unpacking when the split is not 2 parts). -/
def tryParseStr (s : String) : Option ℚ :=
  let cs := s.toList
  if cs.contains ':' then
    match splitOnChar ':' cs with
    | [m, sec] => do
        let mq ← pyFloat m
        let sq ← pyFloat sec
        pure (mq * 60 + sq)
    | _ => Option.none
  else pyFloat cs

/-- `parse_time` (lines 15-25): `None → 0`; a number round-trips through
`str`/`float` to itself (numeric `str` output never contains a colon);
a string is parsed by the `try` body, any exception yielding `0.0`. -/
def parse_time : PyVal → ℚ
  | PyVal.none => 0
  | PyVal.num q => q
  | PyVal.str s =>
      match tryParseStr s with
      | some q => q
      | Option.none => 0

/-- Per-time scale factor of `apply_motion.effect` (lines 57-60):
`s = 1.0`; `1.0 + 0.15 p` for `"zoom-in"`; `1.15 - 0.15 p` for `"zoom-out"`. -/
def motionScale (motion : String) (p : ℚ) : ℚ :=
  if motion = "zoom-in" then 1 + (15 / 100) * p
  else if motion = "zoom-out" then 115 / 100 - (15 / 100) * p
  else 1

/-- `nw, nh = int(w * s), int(h * s)` (line 62).  `int()` truncates toward
zero; `w * s` is non-negative for every scale the script produces, so this
is the floor. -/
def scaledSize (w h : ℕ) (s : ℚ) : ℤ × ℤ :=
  (⌊(w : ℚ) * s⌋, ⌊(h : ℚ) * s⌋)

/-- Crop origin of `apply_motion.effect` (lines 66-71): centered by default,
overridden per pan direction. -/
def cropOrigin (motion : String) (w h : ℕ) (nw nh : ℤ) (p : ℚ) : ℚ × ℚ :=
  let ox : ℚ := ((nw : ℚ) - (w : ℚ)) / 2
  let oy : ℚ := ((nh : ℚ) - (h : ℚ)) / 2
  if motion = "pan-right" then (((nw : ℚ) - (w : ℚ)) * p, oy)
  else if motion = "pan-left" then (((nw : ℚ) - (w : ℚ)) * (1 - p), oy)
  else if motion = "pan-up" then (ox, ((nh : ℚ) - (h : ℚ)) * (1 - p))
  else if motion = "pan-down" then (ox, ((nh : ℚ) - (h : ℚ)) * p)
  else (ox, oy)

/-- The PIL operations the effect uses, abstracted: `resize` to an integer
size, `crop` to a rational box.  Both are pure functions of their inputs. -/
structure FrameOps (Frame : Type) where
  resize : Frame → ℤ × ℤ → Frame
  crop : Frame → ℚ × ℚ × ℚ × ℚ → Frame

/-- The per-frame closure `effect(get_frame, t)` of `apply_motion`
(lines 55-73): progress `p = t / duration`, scale, resize, crop at the
computed origin, resize back to `(w, h)`. -/
def effect {Frame : Type} (ops : FrameOps Frame) (motion : String) (w h : ℕ)
    (duration : ℚ) (get_frame : ℚ → Frame) (t : ℚ) : Frame :=
  let p := t / duration
  let s := motionScale motion p
  let nwh := scaledSize w h s
  let img := ops.resize (get_frame t) nwh
  let oxy := cropOrigin motion w h nwh.1 nwh.2 p
  ops.resize (ops.crop img (oxy.1, oxy.2, oxy.1 + (w : ℚ), oxy.2 + (h : ℚ)))
    ((w : ℤ), (h : ℤ))

/-- `apply_motion` (line 75): wrap the clip's frame function with `effect`
unless the motion is `"none"`, in which case the clip is returned unchanged. -/
def apply_motion {Frame : Type} (ops : FrameOps Frame) (motion : String)
    (w h : ℕ) (duration : ℚ) (frameAt : ℚ → Frame) : ℚ → Frame :=
  if motion ≠ "none" then effect ops motion w h duration frameAt else frameAt

/-- Outcome of the `requests.post` call in `generate_image`: a response with
a status code and body, or a transport exception. -/
inductive HttpOutcome where
  | resp : ℕ → String → HttpOutcome
  | transportError : HttpOutcome
deriving Repr

/-- The script's external world: filesystem existence, the HTTP endpoint
(one outcome per `(prompt, ratio)` payload), and `AudioFileClip` durations. -/
structure Env where
  fileExists : String → Bool
  http : String → String → HttpOutcome
  audioDuration : String → ℚ

/-- Result of `generate_image`: the returned path (`None` on failure) and
whether an HTTP request was issued. -/
structure GenResult where
  path : Option String
  requested : Bool
deriving DecidableEq, Repr

/-- `generate_image` (lines 28-50): if `scene_{index}.jpg` exists, return it
with no network call; otherwise POST and return the written filename on
status 200, `None` on any other status or transport exception. -/
def generate_image (env : Env) (prompt ratio : String) (index : ℕ) : GenResult :=
  let filename := "scene_" ++ toString index ++ ".jpg"
  if env.fileExists filename then { path := some filename, requested := false }
  else
    match env.http prompt ratio with
    | HttpOutcome.resp status _ =>
        if status = 200 then { path := some filename, requested := true }
        else { path := Option.none, requested := true }
    | HttpOutcome.transportError => { path := Option.none, requested := true }

/-- A scene descriptor as read from the input dict: `bg_prompt` (mandatory
key), and the optional `duration`, `motion`, `transition` keys. -/
structure Scene where
  bg_prompt : String
  duration : Option PyVal
  motion : Option String
  transition : Option String
deriving DecidableEq, Repr

/-- A surviving scene clip at the granularity `build_video` uses:
its duration, motion tag and crossfade marker.  (`apply_motion` and
`crossfadein` leave the duration unchanged.) -/
structure Clip where
  duration : ℚ
  motion : String
  crossfade : Bool
deriving DecidableEq, Repr

/-- Lines 107-112: parsed duration (`scene.get("duration", 5)`), motion tag
(`scene.get("motion", "none")`), crossfade marker. -/
def mkClip (scene : Scene) : Clip :=
  { duration := parse_time (scene.duration.getD (PyVal.num 5)),
    motion := scene.motion.getD "none",
    crossfade := scene.transition = some "crossfade" }

/-- One call to `generate_image` as issued by the scene loop. -/
structure FetchCall where
  prompt : String
  ratio : String
  index : ℕ
deriving DecidableEq, Repr

/-- The scene loop (lines 102-114), with the running `enumerate` index `k`
made explicit: call `generate_image` with `scene["bg_prompt"]` and the
1-based index; on success append the clip, on failure skip the scene and
continue.  Also returns the trace of fetch calls. -/
def processScenes (env : Env) (ratio : String) :
    ℕ → List Scene → List Clip × List FetchCall
  | _, [] => ([], [])
  | k, scene :: rest =>
    let call : FetchCall := { prompt := scene.bg_prompt, ratio := ratio, index := k + 1 }
    let g := generate_image env scene.bg_prompt ratio (k + 1)
    let r := processScenes env ratio (k + 1) rest
    match g.path with
    | some _ => (mkClip scene :: r.1, call :: r.2)
    | Option.none => (r.1, call :: r.2)

/-- A sound-effect descriptor: `name`, and the `start`, `volume`, `duration`,
`fade_in`, `fade_out` keys (`volume` and the fades embedded as numbers;
their `float(...)` coercion is not at issue in any claim). -/
structure SoundEffect where
  name : String
  start : Option PyVal
  volume : ℚ
  duration : Option PyVal
  fade_in : ℚ
  fade_out : ℚ
deriving DecidableEq, Repr

/-- A resolved audio segment: start offset and duration on the master
timeline (volume and fades do not change either). -/
structure AudioSeg where
  start : ℚ
  duration : ℚ
  volume : ℚ
deriving DecidableEq, Repr

/-- Python truthiness of the values `sfx.get("duration")` can hold, for the
`if duration:` guard on line 150. -/
def truthy : PyVal → Bool
  | PyVal.none => false
  | PyVal.num q => q ≠ 0
  | PyVal.str s => s ≠ ""

/-- Lines 138-143: probe `assets/soundEffects/{name}{ext}` for the extensions
`.mp3`, `.wav`, `.ogg` in that order; first existing path wins. -/
def findSfxFile (env : Env) (name : String) : Option String :=
  [".mp3", ".wav", ".ogg"].findSome? fun ext =>
    let p := "assets/soundEffects/" ++ name ++ ext
    if env.fileExists p then some p else Option.none

/-- The sound-effect loop (lines 127-166): skip effects whose asset file is
missing; otherwise load the clip (duration from the oracle), trim to the
parsed `duration` when that key is truthy and shorter than the source,
apply volume, and place it at the parsed `start`. -/
def processSfx (env : Env) : List SoundEffect → List AudioSeg
  | [] => []
  | sfx :: rest =>
    let r := processSfx env rest
    match findSfxFile env sfx.name with
    | some p =>
        let acDur := env.audioDuration p
        let start_t := parse_time (sfx.start.getD (PyVal.num 0))
        let trimmed :=
          match sfx.duration with
          | some d =>
              if truthy d then
                let ds := parse_time d
                if ds < acDur then ds else acDur
              else acDur
          | Option.none => acDur
        { start := start_t, duration := trimmed, volume := sfx.volume } :: r
    | Option.none => r

/-- `CompositeAudioClip`'s duration: the maximum clip end
(`start + duration`) over the composed clips. -/
def compositeDuration (segs : List AudioSeg) : ℚ :=
  match segs.map (fun a => a.start + a.duration) with
  | [] => 0
  | e :: es => es.foldl max e

/-- Sum of the surviving clips' durations: the duration of
`concatenate_videoclips(video_clips, method="compose")`. -/
def sumDurations (clips : List Clip) : ℚ :=
  (clips.map Clip.duration).sum

/-- The input dict: `global_settings.ratio`, `scenes`, `soundEffects`. -/
structure InputData where
  ratio : Option String
  scenes : List Scene
  soundEffects : List SoundEffect

/-- The rendered output, at the granularity the claims need: the video
timeline's duration and the attached audio track's duration (`Option.none`
when no sound effect resolved and the video is exported silent). -/
structure Output where
  videoDuration : ℚ
  audioDuration : Option ℚ
deriving DecidableEq, Repr

/-- `build_video` (lines 78-187) on a dict input: process the scenes; if no
clip survives, return without producing an output file (`Option.none`);
otherwise concatenate, build the audio timeline, clamp the composite audio
to the video duration when it is longer (lines 172-173), and export. -/
def build_video (env : Env) (data : InputData) : Option Output :=
  let ratio := data.ratio.getD "16:9"
  let clips := (processScenes env ratio 0 data.scenes).1
  if clips.isEmpty then Option.none
  else
    let vidDur := sumDurations clips
    let segs := processSfx env data.soundEffects
    let audio :=
      if segs.isEmpty then Option.none
      else
        let cd := compositeDuration segs
        some (if vidDur < cd then vidDur else cd)
    some { videoDuration := vidDur, audioDuration := audio }

/-- Every scene's image fetch succeeds (scene loop with running index `k`). -/
def allFetchOk (env : Env) (ratio : String) : ℕ → List Scene → Bool
  | _, [] => true
  | k, scene :: rest =>
    ((generate_image env scene.bg_prompt ratio (k + 1)).path).isSome &&
      allFetchOk env ratio (k + 1) rest

/-- Every scene's image fetch fails (scene loop with running index `k`). -/
def allFetchFail (env : Env) (ratio : String) : ℕ → List Scene → Bool
  | _, [] => true
  | k, scene :: rest =>
    ((generate_image env scene.bg_prompt ratio (k + 1)).path).isNone &&
      allFetchFail env ratio (k + 1) rest

/-- Concrete environments used to instantiate the theorems below. -/
def envAllCached : Env :=
  { fileExists := fun _ => true,
    http := fun _ _ => HttpOutcome.transportError,
    audioDuration := fun _ => 0 }

def envAudio : Env :=
  { fileExists := fun _ => true,
    http := fun _ _ => HttpOutcome.transportError,
    audioDuration := fun _ => 100 }

def envHttp404 : Env :=
  { fileExists := fun _ => false,
    http := fun _ _ => HttpOutcome.resp 404 "err",
    audioDuration := fun _ => 0 }

def envDown : Env :=
  { fileExists := fun _ => false,
    http := fun _ _ => HttpOutcome.transportError,
    audioDuration := fun _ => 0 }

def sceneA : Scene :=
  { bg_prompt := "a castle", duration := some (PyVal.num 3),
    motion := Option.none, transition := Option.none }

def sceneB : Scene :=
  { bg_prompt := "a forest", duration := some (PyVal.num 4),
    motion := Option.none, transition := Option.none }

def sfxBoom : SoundEffect :=
  { name := "boom", start := Option.none, volume := 1 / 2,
    duration := Option.none, fade_in := 0, fade_out := 0 }

def dataTwoScenes : InputData :=
  { ratio := Option.none, scenes := [sceneA, sceneB], soundEffects := [] }

def dataAudio : InputData :=
  { ratio := Option.none, scenes := [sceneA], soundEffects := [sfxBoom] }

/-! ## Helper lemmas -/

theorem processScenes_clips_of_ok (env : Env) (ratio : String) :
    ∀ (k : ℕ) (scenes : List Scene), allFetchOk env ratio k scenes = true →
      (processScenes env ratio k scenes).1 = scenes.map mkClip := by
  intro k scenes
  induction scenes generalizing k with
  | nil => intro _; simp [processScenes]
  | cons scene rest ih =>
    intro h
    rw [allFetchOk, Bool.and_eq_true] at h
    cases hp : (generate_image env scene.bg_prompt ratio (k + 1)).path with
    | none => rw [hp] at h; simp at h
    | some x => simp [processScenes, hp, ih (k + 1) h.2]

theorem processScenes_clips_of_fail (env : Env) (ratio : String) :
    ∀ (k : ℕ) (scenes : List Scene), allFetchFail env ratio k scenes = true →
      (processScenes env ratio k scenes).1 = [] := by
  intro k scenes
  induction scenes generalizing k with
  | nil => intro _; simp [processScenes]
  | cons scene rest ih =>
    intro h
    rw [allFetchFail, Bool.and_eq_true] at h
    cases hp : (generate_image env scene.bg_prompt ratio (k + 1)).path with
    | none => simp [processScenes, hp, ih (k + 1) h.2]
    | some x => rw [hp] at h; simp at h

theorem parseFrac_nonneg {ip fp : List Char} {q : ℚ} (h : parseFrac ip fp = some q) :
    0 ≤ q := by
  unfold parseFrac at h
  split at h
  · injection h with h'
    subst h'
    positivity
  · cases h

theorem parseMag_nonneg {cs : List Char} {q : ℚ} (h : parseMag cs = some q) : 0 ≤ q := by
  unfold parseMag at h
  split at h
  · exact parseFrac_nonneg h
  · exact parseFrac_nonneg h
  · cases h

/-! ## Claims -/

/-- C3: `parse_time` maps `"1:13"` to `73.0`, `"0:05"` to `5.0`, the number
`10` to `10.0`, `None` to `0.0`, and any string whose parse attempt fails
(the swallowed exception) to `0.0`; it is a total function, so no exception
propagates for any input. -/
theorem parse_time_examples :
    parse_time (PyVal.str "1:13") = 73 ∧
    parse_time (PyVal.str "0:05") = 5 ∧
    parse_time (PyVal.num 10) = 10 ∧
    parse_time PyVal.none = 0 ∧
    (∀ s : String, tryParseStr s = Option.none → parse_time (PyVal.str s) = 0) ∧
    (∀ v : PyVal, ∃ q : ℚ, parse_time v = q) := by
  refine ⟨?_, ?_, rfl, rfl, ?_, fun v => ⟨parse_time v, rfl⟩⟩
  · simp +decide [parse_time, tryParseStr, pyFloat, trimChars, parseMag,
      splitOnChar, parseFrac, digitsToNat]
    norm_num
  · simp +decide [parse_time, tryParseStr, pyFloat, trimChars, parseMag,
      splitOnChar, parseFrac, digitsToNat]
  · intro s hs
    simp [parse_time, hs]

/-- C3 witness: the unparsable string `"garbage"` yields `0`. -/
theorem parse_time_examples_witness : parse_time (PyVal.str "garbage") = 0 :=
  parse_time_examples.2.2.2.2.1 "garbage" (by decide)

/-- C4 counterexample: the claim "for every input value the result of
`parse_time` is non-negative" is false — the number `-5` is mapped to `-5`. -/
theorem parse_time_nonneg_counterexample : parse_time (PyVal.num (-5)) < 0 := by
  norm_num [parse_time]

/-- C4 (amended): `parse_time` is non-negative for `None`, for every
non-negative number, and for every string all of whose successfully parsed
numeric components are non-negative; a negative numeric input yields a
negative result. -/
theorem parse_time_nonneg_amended :
    0 ≤ parse_time PyVal.none ∧
    (∀ q : ℚ, 0 ≤ q → 0 ≤ parse_time (PyVal.num q)) ∧
    (∀ s : String,
      (∀ q : ℚ, (pyFloat s.toList = some q → 0 ≤ q) ∧
        (∀ part ∈ splitOnChar ':' s.toList, pyFloat part = some q → 0 ≤ q)) →
      0 ≤ parse_time (PyVal.str s)) := by
  refine ⟨by simp [parse_time], fun q hq => hq, fun s hs => ?_⟩
  cases htry : tryParseStr s with
  | none => simp [parse_time, htry]
  | some q =>
    have h0 : parse_time (PyVal.str s) = q := by simp [parse_time, htry]
    rw [h0]
    unfold tryParseStr at htry
    simp only [] at htry
    split at htry
    · split at htry
      next m sec hsplit =>
        cases hm : pyFloat m with
        | none => rw [hm] at htry; cases htry
        | some mq =>
          cases hsec : pyFloat sec with
          | none => rw [hm, hsec] at htry; cases htry
          | some sq =>
            rw [hm, hsec] at htry
            injection htry with h'
            subst h'
            have h1 : 0 ≤ mq :=
              (hs mq).2 m (by rw [hsplit]; exact List.mem_cons_self m _) hm
            have h2 : 0 ≤ sq :=
              (hs sq).2 sec (by rw [hsplit]; simp) hsec
            positivity
      next => cases htry
    · exact (hs q).1 htry

/-- C4 amended witness: `"0:05"` satisfies the component condition and
parses to a non-negative value. -/
theorem parse_time_nonneg_amended_witness : 0 ≤ parse_time (PyVal.str "0:05") := by
  apply parse_time_nonneg_amended.2.2 "0:05"
  intro q
  constructor
  · intro h
    rw [show pyFloat ("0:05").toList = Option.none from by decide] at h
    cases h
  · intro part hpart h
    have hsp : splitOnChar ':' ("0:05").toList = [['0'], ['0', '5']] := by decide
    rw [hsp] at hpart
    have : part = ['0'] ∨ part = ['0', '5'] := by simpa using hpart
    rcases this with rfl | rfl
    · rw [show pyFloat ['0'] = some 0 from by
        simp +decide [pyFloat, trimChars, parseMag, splitOnChar, parseFrac, digitsToNat]] at h
      injection h with h'
      subst h'
      norm_num
    · rw [show pyFloat ['0', '5'] = some 5 from by
        simp +decide [pyFloat, trimChars, parseMag, splitOnChar, parseFrac, digitsToNat]] at h
      injection h with h'
      subst h'
      norm_num

/-- C5: for a clip of duration `d` with motion `"zoom-in"` the scale at
progress `p = t/d` is `1 + 0.15 p`, so `t = 0` gives scale exactly `1` with a
centered crop (which at scale `1` is the identity origin `(0,0)`) and `t = d`
gives the maximal scale `1.15`; with `"zoom-out"` the scale is
`1.15 - 0.15 p`. -/
theorem zoom_motion_spec (d : ℚ) (hd : 0 < d) :
    motionScale "zoom-in" (0 / d) = 1 ∧
    motionScale "zoom-in" (d / d) = 115 / 100 ∧
    (∀ p : ℚ, motionScale "zoom-in" p = 1 + (15 / 100) * p) ∧
    (∀ p : ℚ, motionScale "zoom-out" p = 115 / 100 - (15 / 100) * p) ∧
    (∀ p : ℚ, 0 ≤ p → p ≤ 1 → motionScale "zoom-in" p ≤ 115 / 100) ∧
    (∀ w h : ℕ, scaledSize w h (motionScale "zoom-in" (0 / d)) = ((w : ℤ), (h : ℤ)) ∧
      cropOrigin "zoom-in" w h ((w : ℕ) : ℤ) ((h : ℕ) : ℤ) (0 / d) = (0, 0)) := by
  have hz : (0 : ℚ) / d = 0 := zero_div d
  have hone : d / d = 1 := div_self (ne_of_gt hd)
  refine ⟨?_, ?_, ?_, ?_, ?_, ?_⟩
  · rw [hz]; simp +decide [motionScale]
  · rw [hone]; simp +decide [motionScale]; norm_num
  · intro p; simp +decide [motionScale]
  · intro p; simp +decide [motionScale]
  · intro p hp0 hp1
    simp +decide [motionScale]
    linarith
  · intro w h
    rw [hz]
    constructor
    · simp +decide [motionScale, scaledSize]
    · simp +decide [cropOrigin]

/-- C5 witness: at `d = 3` the zoom-in scale is `1` at `t = 0` and `1.15`
at `t = d`. -/
theorem zoom_motion_spec_witness :
    motionScale "zoom-in" (0 / 3) = 1 ∧ motionScale "zoom-in" ((3 : ℚ) / 3) = 115 / 100 :=
  ⟨(zoom_motion_spec 3 (by norm_num)).1, (zoom_motion_spec 3 (by norm_num)).2.1⟩

/-- C6: every pan motion keeps scale `1` (so the scaled size equals the
target size), the crop origins follow the spec's formulas — `"pan-right"`
`ox = (w·s - w)·p` with centered `oy`, `"pan-left"` mirrored, `"pan-up"` /
`"pan-down"` on `oy` — with `ox = 0` at `p = 0` and `ox = scaled_width - w`
at `p = 1` for `"pan-right"`, and any other motion tag gets the centered
crop. -/
theorem pan_motion_spec (w h : ℕ) (p : ℚ) :
    (motionScale "pan-right" p = 1 ∧ motionScale "pan-left" p = 1 ∧
      motionScale "pan-up" p = 1 ∧ motionScale "pan-down" p = 1 ∧
      motionScale "none" p = 1) ∧
    scaledSize w h 1 = ((w : ℤ), (h : ℤ)) ∧
    (cropOrigin "pan-right" w h ((w : ℕ) : ℤ) ((h : ℕ) : ℤ) p =
        (((w : ℚ) - (w : ℚ)) * p, ((h : ℚ) - (h : ℚ)) / 2) ∧
      cropOrigin "pan-left" w h ((w : ℕ) : ℤ) ((h : ℕ) : ℤ) p =
        (((w : ℚ) - (w : ℚ)) * (1 - p), ((h : ℚ) - (h : ℚ)) / 2) ∧
      cropOrigin "pan-up" w h ((w : ℕ) : ℤ) ((h : ℕ) : ℤ) p =
        (((w : ℚ) - (w : ℚ)) / 2, ((h : ℚ) - (h : ℚ)) * (1 - p)) ∧
      cropOrigin "pan-down" w h ((w : ℕ) : ℤ) ((h : ℕ) : ℤ) p =
        (((w : ℚ) - (w : ℚ)) / 2, ((h : ℚ) - (h : ℚ)) * p)) ∧
    ((cropOrigin "pan-right" w h ((w : ℕ) : ℤ) ((h : ℕ) : ℤ) 0).1 = 0 ∧
      (cropOrigin "pan-right" w h ((w : ℕ) : ℤ) ((h : ℕ) : ℤ) 1).1 =
        (w : ℚ) - (w : ℚ)) ∧
    (∀ m : String, m ≠ "pan-right" → m ≠ "pan-left" → m ≠ "pan-up" →
      m ≠ "pan-down" → ∀ nw nh : ℤ,
      cropOrigin m w h nw nh p = (((nw : ℚ) - (w : ℚ)) / 2, ((nh : ℚ) - (h : ℚ)) / 2)) := by
  refine ⟨⟨?_, ?_, ?_, ?_, ?_⟩, ?_, ⟨?_, ?_, ?_, ?_⟩, ⟨?_, ?_⟩, ?_⟩
  · simp +decide [motionScale]
  · simp +decide [motionScale]
  · simp +decide [motionScale]
  · simp +decide [motionScale]
  · simp +decide [motionScale]
  · simp [scaledSize]
  · simp +decide [cropOrigin]
  · simp +decide [cropOrigin]
  · simp +decide [cropOrigin]
  · simp +decide [cropOrigin]
  · simp +decide [cropOrigin]
  · simp +decide [cropOrigin]
  · intro m h1 h2 h3 h4 nw nh
    simp [cropOrigin, h1, h2, h3, h4]

/-- C6 witness: a non-pan motion tag at a concrete size and progress gets
the centered crop origin. -/
theorem pan_motion_spec_witness :
    cropOrigin "zoom-out" 16 9 18 10 (1 / 2) = ((18 - 16 : ℚ) / 2, (10 - 9 : ℚ) / 2) := by
  have h := (pan_motion_spec 16 9 (1 / 2)).2.2.2.2 "zoom-out"
    (by decide) (by decide) (by decide) (by decide) 18 10
  rw [h]
  norm_num

/-- C7: the per-frame transform is deterministic and purely a function of
the time instant `t`: re-evaluating at the same `t` gives the identical
frame, and the result depends on the frame source only through its value at
`t` — so arbitrary, out-of-order or repeated sampling cannot influence any
other evaluation. -/
theorem effect_pure (Frame : Type) (ops : FrameOps Frame) (motion : String)
    (w h : ℕ) (d : ℚ) (g g' : ℚ → Frame) (t : ℚ) :
    effect ops motion w h d g t = effect ops motion w h d g t ∧
    (g t = g' t → effect ops motion w h d g t = effect ops motion w h d g' t) := by
  refine ⟨rfl, fun hgt => ?_⟩
  unfold effect
  rw [hgt]

/-- C7 witness: two frame sources that agree at `t = 2` give identical
transformed frames there. -/
theorem effect_pure_witness :
    effect (⟨fun f _ => f, fun f _ => f⟩ : FrameOps ℕ) "zoom-in" 16 9 5
        (fun _ => 0) 2 =
      effect (⟨fun f _ => f, fun f _ => f⟩ : FrameOps ℕ) "zoom-in" 16 9 5
        (fun _ => 0 + 0) 2 :=
  (effect_pure ℕ ⟨fun f _ => f, fun f _ => f⟩ "zoom-in" 16 9 5
    (fun _ => 0) (fun _ => 0 + 0) 2).2 (by norm_num)

/-- C1: when every scene's image fetch succeeds, the concatenated video's
total duration is the sum of the parsed scene durations (each defaulting to
5 seconds when absent). -/
theorem build_video_total_duration (env : Env) (data : InputData)
    (hne : data.scenes ≠ [])
    (hok : allFetchOk env (data.ratio.getD "16:9") 0 data.scenes = true) :
    ∃ out, build_video env data = some out ∧
      out.videoDuration =
        (data.scenes.map (fun sc => parse_time (sc.duration.getD (PyVal.num 5)))).sum := by
  have hclips := processScenes_clips_of_ok env (data.ratio.getD "16:9") 0 data.scenes hok
  have hempty : (data.scenes.map mkClip).isEmpty = false := by
    cases hsc : data.scenes with
    | nil => exact absurd hsc hne
    | cons a l => simp
  simp only [build_video, hclips, hempty, Bool.false_eq_true, if_false]
  refine ⟨_, rfl, ?_⟩
  show sumDurations (data.scenes.map mkClip) = _
  rw [sumDurations, List.map_map]
  rfl

/-- C1 witness: two all-cached scenes of durations 3 s and 4 s, no
transitions and no sound effects, yield a 7 s video. -/
theorem build_video_total_duration_witness :
    ∃ out, build_video envAllCached dataTwoScenes = some out ∧ out.videoDuration = 7 := by
  obtain ⟨out, h1, h2⟩ :=
    build_video_total_duration envAllCached dataTwoScenes (by decide) (by decide)
  refine ⟨out, h1, ?_⟩
  rw [h2]
  show parse_time (PyVal.num 3) + (parse_time (PyVal.num 4) + 0) = 7
  norm_num [parse_time]

/-- C2: whenever `build_video` attaches an audio track, its duration never
exceeds the video's; when the composite audio is strictly longer than the
video timeline it is truncated to exactly the video's duration; and the
video duration is always the scene clips' total, never extended to match
audio. -/
theorem build_video_audio_clamped (env : Env) (data : InputData) (out : Output) (a : ℚ)
    (hb : build_video env data = some out) (ha : out.audioDuration = some a) :
    a ≤ out.videoDuration ∧
    (out.videoDuration < compositeDuration (processSfx env data.soundEffects) →
      a = out.videoDuration) ∧
    out.videoDuration =
      sumDurations (processScenes env (data.ratio.getD "16:9") 0 data.scenes).1 := by
  simp only [build_video] at hb
  by_cases hclips :
      ((processScenes env (data.ratio.getD "16:9") 0 data.scenes).1).isEmpty = true
  · rw [if_pos hclips] at hb; cases hb
  · rw [if_neg hclips] at hb
    by_cases hsegs : (processSfx env data.soundEffects).isEmpty = true
    · rw [if_pos hsegs] at hb
      injection hb with hb'
      subst hb'
      simp only [Output.audioDuration] at ha
      cases ha
    · rw [if_neg hsegs] at hb
      injection hb with hb'
      subst hb'
      simp only [Output.audioDuration] at ha
      injection ha with ha'
      subst ha'
      simp only [Output.videoDuration]
      refine ⟨?_, ?_, trivial⟩
      · split
        next h => exact le_refl _
        next h => exact le_of_not_lt h
      · intro hlt
        rw [if_pos hlt]

/-- C2 witness: a 100 s sound effect over a 3 s video is clamped to an
attached audio duration of exactly 3 s. -/
theorem build_video_audio_clamped_witness :
    ∃ out a, build_video envAudio dataAudio = some out ∧
      out.audioDuration = some a ∧ a ≤ out.videoDuration := by
  have hb : build_video envAudio dataAudio = some { videoDuration := 3, audioDuration := some 3 } := by
    simp +decide [build_video, dataAudio, envAudio, processScenes, generate_image,
      mkClip, sceneA, parse_time, processSfx, findSfxFile, sfxBoom, compositeDuration,
      sumDurations]
  exact ⟨_, _, hb, rfl, (build_video_audio_clamped envAudio dataAudio _ 3 hb rfl).1⟩

/-- C8: an existing `scene_{index}.jpg` is returned with no network request;
a non-200 status or a transport failure yields no image; and a scene whose
fetch yields no image is skipped while the remaining scenes are still
processed. -/
theorem generate_image_cache_and_skip (env : Env) (prompt ratio : String) (i : ℕ) :
    (env.fileExists ("scene_" ++ toString i ++ ".jpg") = true →
      generate_image env prompt ratio i =
        { path := some ("scene_" ++ toString i ++ ".jpg"), requested := false }) ∧
    (∀ (st : ℕ) (c : String), env.fileExists ("scene_" ++ toString i ++ ".jpg") = false →
      env.http prompt ratio = HttpOutcome.resp st c → st ≠ 200 →
      (generate_image env prompt ratio i).path = Option.none) ∧
    (env.fileExists ("scene_" ++ toString i ++ ".jpg") = false →
      env.http prompt ratio = HttpOutcome.transportError →
      (generate_image env prompt ratio i).path = Option.none) ∧
    (∀ (scene : Scene) (rest : List Scene) (k : ℕ),
      (generate_image env scene.bg_prompt ratio (k + 1)).path = Option.none →
      (processScenes env ratio k (scene :: rest)).1 =
        (processScenes env ratio (k + 1) rest).1) := by
  refine ⟨?_, ?_, ?_, ?_⟩
  · intro hex
    simp [generate_image, hex]
  · intro st c hex hresp hst
    simp [generate_image, hex, hresp, hst]
  · intro hex hresp
    simp [generate_image, hex, hresp]
  · intro scene rest k hp
    simp [processScenes, hp]

/-- C8 witness: each branch at a concrete environment — cache hit with no
request, a 404, a transport error, and the skip of a failing scene. -/
theorem generate_image_cache_and_skip_witness :
    generate_image envAllCached "p" "16:9" 1 =
      { path := some ("scene_" ++ toString 1 ++ ".jpg"), requested := false } ∧
    (generate_image envHttp404 "p" "16:9" 1).path = Option.none ∧
    (generate_image envDown "p" "16:9" 1).path = Option.none ∧
    (processScenes envDown "16:9" 0 [sceneA]).1 = (processScenes envDown "16:9" 1 []).1 := by
  refine ⟨(generate_image_cache_and_skip envAllCached "p" "16:9" 1).1 rfl,
    (generate_image_cache_and_skip envHttp404 "p" "16:9" 1).2.1 404 "err" rfl rfl (by decide),
    (generate_image_cache_and_skip envDown "p" "16:9" 1).2.2.1 rfl rfl,
    (generate_image_cache_and_skip envDown "p" "16:9" 1).2.2.2 sceneA [] 0 ?_⟩
  simp [generate_image, envDown, sceneA]

/-- C9: when every scene's image fetch fails, zero clips survive and
`build_video` returns normally without producing an output file. -/
theorem build_video_no_output (env : Env) (data : InputData)
    (hfail : allFetchFail env (data.ratio.getD "16:9") 0 data.scenes = true) :
    build_video env data = Option.none := by
  have hclips := processScenes_clips_of_fail env (data.ratio.getD "16:9") 0 data.scenes hfail
  simp only [build_video, hclips]
  rfl

/-- C9 witness: with the network down and no cached files, a two-scene input
produces no output file. -/
theorem build_video_no_output_witness :
    build_video envDown dataTwoScenes = Option.none :=
  build_video_no_output envDown dataTwoScenes (by decide)

/-- C10: the prompt passed to the image fetcher for each scene descriptor,
in order, is exactly that descriptor's `bg_prompt` field (the spec's
`background_prompt`). -/
theorem fetch_prompt_is_bg_prompt (env : Env) (ratio : String) :
    ∀ (k : ℕ) (scenes : List Scene),
      (processScenes env ratio k scenes).2.map FetchCall.prompt =
        scenes.map Scene.bg_prompt := by
  intro k scenes
  induction scenes generalizing k with
  | nil => simp [processScenes]
  | cons scene rest ih =>
    cases hp : (generate_image env scene.bg_prompt ratio (k + 1)).path with
    | none => simp [processScenes, hp, ih (k + 1)]
    | some x => simp [processScenes, hp, ih (k + 1)]

end VideoGenerator
